import Mathlib

/-!
Verification of the AI-Data-Query-System query-processing pipeline
(`backend/services/query_processor.py` and `backend/routes/query_router.py`)
against its natural-language specification.

The Python code is shallowly embedded: dictionaries with fixed key sets become
structures, Python string operations become executable functions over
`List Char`, insertion-ordered Python dicts become association lists, and the
stable `list.sort` becomes a stable insertion sort.  Python `set` iteration
order (unspecified at runtime) is modelled as first-insertion order; no
theorem below depends on it.
-/

namespace QuerySystem

/-! ## String utilities (Python `in`, `str.lower`, substring tests) -/

/-- Python `needle in haystack` prefix step: does `n` occur at the head of `l`? -/
def listPrefixOf : List Char → List Char → Bool
  | [], _ => true
  | _ :: _, [] => false
  | a :: as, b :: bs => a == b && listPrefixOf as bs

/-- Python `needle in haystack` over char lists: substring occurrence. -/
def listContainsSub (needle : List Char) : List Char → Bool
  | [] => needle.isEmpty
  | c :: cs => listPrefixOf needle (c :: cs) || listContainsSub needle cs

/-- Python `sub in s` (substring containment). -/
def strContains (s sub : String) : Bool :=
  listContainsSub sub.data s.data

/-- ASCII lower-casing of one character, modelling Python `str.lower` on the
ASCII vocabulary this pipeline matches against. -/
def asciiToLower (c : Char) : Char :=
  if 65 ≤ c.toNat && c.toNat ≤ 90 then Char.ofNat (c.toNat + 32) else c

/-- Python `s.lower()` (ASCII). -/
def strLower (s : String) : String :=
  String.mk (s.data.map asciiToLower)

/-- Python `any(w in q for w in ws)`. -/
def anyContained (q : String) (ws : List String) : Bool :=
  ws.any (fun w => strContains q w)

/-! ## Data model

`ClientProfile` mirrors the MongoDB client-profile documents used by the
pipeline (the fields read by `query_processor.py`), `Transaction` mirrors the
MySQL `investments` rows read by `_fetch_mysql_data` (ignoring `created_at`,
which no pipeline step reads). -/

structure ClientProfile where
  client_id : String
  name : String
  portfolio_value : Nat
  risk_appetite : String
  location : String
  age : Nat
  income_level : String
  deriving Repr, DecidableEq

structure Transaction where
  client_id : String
  portfolio_value : Nat
  relationship_manager : String
  investment_type : String
  deriving Repr, DecidableEq

/-- The `raw_data` dictionary: each key is present only when the corresponding
data source was consulted (`"client_profiles" in raw_data` becomes
`Option.isSome`). -/
structure RawData where
  client_profiles : Option (List ClientProfile)
  transactions : Option (List Transaction)
  deriving Repr, DecidableEq

/-- The intent-descriptor dictionary produced by `_analyze_query_intent` /
`_fallback_query_analysis`. -/
structure IntentDescriptor where
  query_type : String
  data_sources : List String
  visualization_type : String
  key_entities : List String
  intent_summary : String
  suggested_aggregations : List String
  deriving Repr, DecidableEq

/-! ## Intent Classifier fallback (`_fallback_query_analysis`) -/

/-- `_fallback_query_analysis`: keyword-based analysis used when the Gemini
call fails. -/
def fallback_query_analysis (user_query : String) : IntentDescriptor :=
  let query_lower := strLower user_query
  let qtv : String × String :=
    if anyContained query_lower ["top", "best", "highest", "most"] then
      ("top_performers", "bar_chart")
    else if anyContained query_lower ["breakup", "breakdown", "distribution"] then
      ("breakdown_analysis", "pie_chart")
    else if anyContained query_lower ["portfolio", "investment"] then
      ("portfolio_summary", "table")
    else
      ("client_info", "text")
  { query_type := qtv.1
    data_sources := ["mongodb", "mysql"]
    visualization_type := qtv.2
    key_entities := []
    intent_summary := "User query about " ++ qtv.1
    suggested_aggregations := ["count", "sum"] }

/-- Claim C1: for every query string, the fallback classifier branches on the
lower-cased text exactly as specified — top/best/highest/most gives
`top_performers` with a bar visualization (the code's literal string is
`"bar_chart"`, named `bar` in the specification's enumeration), then
breakup/breakdown/distribution gives `breakdown_analysis` with pie, then
portfolio/investment gives `portfolio_summary` with table, else `client_info`
with text; and in every branch the data sources are both stores, the entities
list is empty, and the aggregation hints are `["count", "sum"]`. -/
theorem claim_c1_fallback_classifier (q : String) :
    (anyContained (strLower q) ["top", "best", "highest", "most"] = true →
      (fallback_query_analysis q).query_type = "top_performers" ∧
      (fallback_query_analysis q).visualization_type = "bar_chart") ∧
    (anyContained (strLower q) ["top", "best", "highest", "most"] = false →
      anyContained (strLower q) ["breakup", "breakdown", "distribution"] = true →
      (fallback_query_analysis q).query_type = "breakdown_analysis" ∧
      (fallback_query_analysis q).visualization_type = "pie_chart") ∧
    (anyContained (strLower q) ["top", "best", "highest", "most"] = false →
      anyContained (strLower q) ["breakup", "breakdown", "distribution"] = false →
      anyContained (strLower q) ["portfolio", "investment"] = true →
      (fallback_query_analysis q).query_type = "portfolio_summary" ∧
      (fallback_query_analysis q).visualization_type = "table") ∧
    (anyContained (strLower q) ["top", "best", "highest", "most"] = false →
      anyContained (strLower q) ["breakup", "breakdown", "distribution"] = false →
      anyContained (strLower q) ["portfolio", "investment"] = false →
      (fallback_query_analysis q).query_type = "client_info" ∧
      (fallback_query_analysis q).visualization_type = "text") ∧
    (fallback_query_analysis q).data_sources = ["mongodb", "mysql"] ∧
    (fallback_query_analysis q).key_entities = [] ∧
    (fallback_query_analysis q).suggested_aggregations = ["count", "sum"] := by
  unfold fallback_query_analysis
  constructor
  · intro h1; simp [h1]
  constructor
  · intro h1 h2; simp [h1, h2]
  constructor
  · intro h1 h2 h3; simp [h1, h2, h3]
  constructor
  · intro h1 h2 h3; simp [h1, h2, h3]
  · constructor <;> [skip; constructor] <;> rfl

/-- Witness for C1 at the concrete query "show me the best clients": the
top-keywords branch fires. -/
theorem claim_c1_fallback_classifier_witness :
    (fallback_query_analysis "show me the best clients").query_type = "top_performers" ∧
    (fallback_query_analysis "show me the best clients").visualization_type = "bar_chart" :=
  (claim_c1_fallback_classifier "show me the best clients").1 (by decide)

/-! ## Filter Compiler (client-side record filter)

`_get_filtered_sample_mongodb_data` and `_get_filtered_data_for_charts`
contain the same per-record include/exclude loop; it is embedded once.  The
sequential `if`/`elif` assignments of `include_client = False` amount to the
negation of the disjunction of the guarded exclusion conditions. -/

/-- The per-record keyword filter applied client-side (sample fallback and
chart paths).  `user_query` is the already lower-cased query text. -/
def client_keyword_filter (user_query : String) (client : ClientProfile) : Bool :=
  let locExclude :=
    if strContains user_query "mumbai" && !(client.location == "Mumbai") then true
    else if strContains user_query "ranchi" && !(client.location == "Ranchi") then true
    else false
  let riskExclude :=
    if strContains user_query "conservative" && !(client.risk_appetite == "conservative") then true
    else if strContains user_query "moderate" && !(client.risk_appetite == "moderate") then true
    else if strContains user_query "aggressive" && !(client.risk_appetite == "aggressive") then true
    else false
  let nameExclude :=
    if (strContains user_query "virat" || strContains user_query "kohli")
        && !(strContains client.name "Virat") then true
    else if (strContains user_query "dhoni" || strContains user_query "ms")
        && !(strContains client.name "Dhoni") then true
    else if (strContains user_query "rohit" || strContains user_query "sharma")
        && !(strContains client.name "Rohit") then true
    else if (strContains user_query "deepika" || strContains user_query "padukone")
        && !(strContains client.name "Deepika") then true
    else if (strContains user_query "shah rukh" || strContains user_query "khan")
        && !(strContains client.name "Shah Rukh") then true
    else false
  !(locExclude || riskExclude || nameExclude)

/-- Location dimension of the filter: every fired location trigger's
constraint must hold. -/
def location_dimension_test (uq : String) (c : ClientProfile) : Bool :=
  (!strContains uq "mumbai" || c.location == "Mumbai") &&
  (!strContains uq "ranchi" || c.location == "Ranchi")

/-- Risk dimension of the filter: every fired risk trigger's constraint must
hold. -/
def risk_dimension_test (uq : String) (c : ClientProfile) : Bool :=
  (!strContains uq "conservative" || c.risk_appetite == "conservative") &&
  (!strContains uq "moderate" || c.risk_appetite == "moderate") &&
  (!strContains uq "aggressive" || c.risk_appetite == "aggressive")

/-- Name dimension of the filter: every fired named-entity trigger's
constraint must hold. -/
def name_dimension_test (uq : String) (c : ClientProfile) : Bool :=
  (!(strContains uq "virat" || strContains uq "kohli") || strContains c.name "Virat") &&
  (!(strContains uq "dhoni" || strContains uq "ms") || strContains c.name "Dhoni") &&
  (!(strContains uq "rohit" || strContains uq "sharma") || strContains c.name "Rohit") &&
  (!(strContains uq "deepika" || strContains uq "padukone") || strContains c.name "Deepika") &&
  (!(strContains uq "shah rukh" || strContains uq "khan") || strContains c.name "Shah Rukh")

/-- No keyword trigger of any dimension fires in the query text. -/
def no_filter_trigger (uq : String) : Bool :=
  !(strContains uq "mumbai" || strContains uq "ranchi" ||
    strContains uq "conservative" || strContains uq "moderate" ||
    strContains uq "aggressive" ||
    strContains uq "virat" || strContains uq "kohli" ||
    strContains uq "dhoni" || strContains uq "ms" ||
    strContains uq "rohit" || strContains uq "sharma" ||
    strContains uq "deepika" || strContains uq "padukone" ||
    strContains uq "shah rukh" || strContains uq "khan")

/-- A two-trigger guarded exclusion chain negated equals the conjunction of
the fired constraints. -/
theorem not_excl_chain2 : ∀ a x b y : Bool,
    (!(if a && !x then true else if b && !y then true else false)) =
      ((!a || x) && (!b || y)) := by decide

/-- Three-trigger version of `not_excl_chain2`. -/
theorem not_excl_chain3 : ∀ a x b y c z : Bool,
    (!(if a && !x then true else if b && !y then true
       else if c && !z then true else false)) =
      ((!a || x) && (!b || y) && (!c || z)) := by decide

/-- Five-trigger version of `not_excl_chain2`. -/
theorem not_excl_chain5 : ∀ a₁ x₁ a₂ x₂ a₃ x₃ a₄ x₄ a₅ x₅ : Bool,
    (!(if a₁ && !x₁ then true else if a₂ && !x₂ then true
       else if a₃ && !x₃ then true else if a₄ && !x₄ then true
       else if a₅ && !x₅ then true else false)) =
      ((!a₁ || x₁) && (!a₂ || x₂) && (!a₃ || x₃) && (!a₄ || x₄) && (!a₅ || x₅)) := by
  decide

/-- Modelled from the spec's words (§4.2), for comparison with the
source-derived `client_keyword_filter`: each dimension selects only its
first fired trigger's constraint (first-match-wins) and the three dimensions
are conjoined. -/
def first_match_wins_filter (uq : String) (c : ClientProfile) : Bool :=
  let locOk :=
    if strContains uq "mumbai" then c.location == "Mumbai"
    else if strContains uq "ranchi" then c.location == "Ranchi"
    else true
  let riskOk :=
    if strContains uq "conservative" then c.risk_appetite == "conservative"
    else if strContains uq "moderate" then c.risk_appetite == "moderate"
    else if strContains uq "aggressive" then c.risk_appetite == "aggressive"
    else true
  let nameOk :=
    if strContains uq "virat" || strContains uq "kohli" then strContains c.name "Virat"
    else if strContains uq "dhoni" || strContains uq "ms" then strContains c.name "Dhoni"
    else if strContains uq "rohit" || strContains uq "sharma" then strContains c.name "Rohit"
    else if strContains uq "deepika" || strContains uq "padukone" then strContains c.name "Deepika"
    else if strContains uq "shah rukh" || strContains uq "khan" then strContains c.name "Shah Rukh"
    else true
  locOk && riskOk && nameOk

/-- A Mumbai-located, moderate-risk client used to separate the code's filter
from the first-match-wins reading. -/
def mumbaiModerateClient : ClientProfile :=
  { client_id := "C010", name := "Test Person", portfolio_value := 1000
    risk_appetite := "moderate", location := "Mumbai", age := 40
    income_level := "high" }

/-- Counterexample to claim C7: on the query text "mumbai ranchi" both
location triggers fire; the code's filter excludes a Mumbai client (it
requires every fired constraint), while the claimed first-match-wins
predicate keeps it (only the Mumbai constraint would apply). -/
theorem claim_c7_filter_counterexample :
    client_keyword_filter "mumbai ranchi" mumbaiModerateClient = false ∧
    first_match_wins_filter "mumbai ranchi" mumbaiModerateClient = true := by
  decide

/-- Claim C7 (amended): the compiled record-level filter is the conjunction
(logical AND) of its location, risk, and name tests, where each dimension
requires the record to satisfy the constraint of every fired trigger in that
dimension (a guarded-exclusion chain, not first-match-wins selection of a
single constraint); when no trigger fires in any dimension the filter is the
constant-true predicate. -/
theorem claim_c7_filter_conjunction_amended (uq : String) (c : ClientProfile) :
    client_keyword_filter uq c =
      (location_dimension_test uq c && risk_dimension_test uq c &&
        name_dimension_test uq c) ∧
    (no_filter_trigger uq = true → client_keyword_filter uq c = true) := by
  have hmain : client_keyword_filter uq c =
      (location_dimension_test uq c && risk_dimension_test uq c &&
        name_dimension_test uq c) := by
    simp only [client_keyword_filter, Bool.not_or]
    rw [not_excl_chain2, not_excl_chain3, not_excl_chain5]
    unfold location_dimension_test risk_dimension_test name_dimension_test
    ac_rfl
  refine ⟨hmain, ?_⟩
  intro h
  simp only [no_filter_trigger] at h
  simp at h
  rw [hmain]
  simp only [location_dimension_test, risk_dimension_test, name_dimension_test]
  simp_all

/-- Witness for C7 (amended) at the trigger-free query "hello clients": the
filter keeps every record. -/
theorem claim_c7_filter_conjunction_amended_witness :
    client_keyword_filter "hello clients" mumbaiModerateClient = true :=
  (claim_c7_filter_conjunction_amended "hello clients" mumbaiModerateClient).2
    (by decide)

/-! ## Data Fetcher sample fallback (`_get_sample_mongodb_data`,
`_get_filtered_sample_mongodb_data`) -/

/-- `_get_sample_mongodb_data`: the fixed 5-record in-memory sample set. -/
def sample_mongodb_data : List ClientProfile :=
  [ { client_id := "C001", name := "Virat Kohli", portfolio_value := 50000000
      risk_appetite := "moderate", location := "Mumbai", age := 35
      income_level := "high" },
    { client_id := "C002", name := "MS Dhoni", portfolio_value := 75000000
      risk_appetite := "conservative", location := "Ranchi", age := 42
      income_level := "high" },
    { client_id := "C003", name := "Rohit Sharma", portfolio_value := 45000000
      risk_appetite := "aggressive", location := "Mumbai", age := 36
      income_level := "high" },
    { client_id := "C004", name := "Deepika Padukone", portfolio_value := 60000000
      risk_appetite := "moderate", location := "Mumbai", age := 38
      income_level := "high" },
    { client_id := "C005", name := "Shah Rukh Khan", portfolio_value := 100000000
      risk_appetite := "conservative", location := "Mumbai", age := 58
      income_level := "high" } ]

/-- `_get_filtered_sample_mongodb_data`: on a profile-store error, the sample
set is filtered client-side; an empty filtered result falls open to the full
sample set. -/
def get_filtered_sample_mongodb_data (user_query : String) : List ClientProfile :=
  if (sample_mongodb_data.filter (client_keyword_filter (strLower user_query))).isEmpty then
    sample_mongodb_data
  else
    sample_mongodb_data.filter (client_keyword_filter (strLower user_query))

/-- Claim C4: for every query text, the profile-store fallback returns the
fixed 5-record sample set filtered by the query-text predicate; if the
predicate excludes every sample record it returns the full unfiltered sample
set; the result is never empty. -/
theorem claim_c4_sample_fallback_fail_open (q : String) :
    (sample_mongodb_data.filter (client_keyword_filter (strLower q)) ≠ [] →
      get_filtered_sample_mongodb_data q =
        sample_mongodb_data.filter (client_keyword_filter (strLower q))) ∧
    (sample_mongodb_data.filter (client_keyword_filter (strLower q)) = [] →
      get_filtered_sample_mongodb_data q = sample_mongodb_data) ∧
    get_filtered_sample_mongodb_data q ≠ [] := by
  unfold get_filtered_sample_mongodb_data
  cases hf : sample_mongodb_data.filter (client_keyword_filter (strLower q)) with
  | nil =>
    refine ⟨fun h => absurd rfl h, fun _ => by decide, by decide⟩
  | cons a l =>
    refine ⟨fun _ => rfl, fun h => absurd h (List.cons_ne_nil a l), ?_⟩
    simp

/-- Witness for C4 at the concrete query "mumbai": the filtered sample set is
the four Mumbai records and is returned as-is. -/
theorem claim_c4_sample_fallback_fail_open_witness :
    get_filtered_sample_mongodb_data "mumbai" =
      sample_mongodb_data.filter (client_keyword_filter (strLower "mumbai")) :=
  (claim_c4_sample_fallback_fail_open "mumbai").1 (by decide)

/-! ## Stable descending sort

Python's `list.sort(key=..., reverse=True)` and the store's
`sort("portfolio_value", -1)` are modelled as the stable descending
insertion sort on a `Nat` key (the unique stable descending order). -/

/-- Insert `x` into a descending-sorted list, before the first element with a
strictly smaller key (so earlier-original elements stay first among equal
keys). -/
def insertDescBy (key : α → Nat) (x : α) : List α → List α
  | [] => [x]
  | b :: bs => if key b ≤ key x then x :: b :: bs else b :: insertDescBy key x bs

/-- Stable sort into descending key order. -/
def sortDescBy (key : α → Nat) (l : List α) : List α :=
  l.foldr (insertDescBy key) []

theorem mem_insertDescBy (key : α → Nat) (x : α) (l : List α) (y : α) :
    y ∈ insertDescBy key x l ↔ y = x ∨ y ∈ l := by
  induction l with
  | nil => simp [insertDescBy]
  | cons b bs ih =>
    simp only [insertDescBy]
    split
    · simp
    · simp [ih]
      tauto

theorem mem_sortDescBy (key : α → Nat) (l : List α) (y : α) :
    y ∈ sortDescBy key l ↔ y ∈ l := by
  induction l with
  | nil => simp [sortDescBy]
  | cons b bs ih =>
    show y ∈ insertDescBy key b (sortDescBy key bs) ↔ _
    rw [mem_insertDescBy, ih]
    simp

theorem length_insertDescBy (key : α → Nat) (x : α) (l : List α) :
    (insertDescBy key x l).length = l.length + 1 := by
  induction l with
  | nil => rfl
  | cons b bs ih =>
    simp only [insertDescBy]
    split
    · rfl
    · simp [ih]

theorem length_sortDescBy (key : α → Nat) (l : List α) :
    (sortDescBy key l).length = l.length := by
  induction l with
  | nil => rfl
  | cons b bs ih =>
    show (insertDescBy key b (sortDescBy key bs)).length = _
    rw [length_insertDescBy, ih, List.length_cons]

theorem pairwise_insertDescBy (key : α → Nat) (x : α) (l : List α)
    (h : l.Pairwise (fun a b => key b ≤ key a)) :
    (insertDescBy key x l).Pairwise (fun a b => key b ≤ key a) := by
  induction l with
  | nil => simp [insertDescBy]
  | cons b bs ih =>
    rcases List.pairwise_cons.mp h with ⟨hb, hbs⟩
    simp only [insertDescBy]
    split
    next hle =>
      refine List.pairwise_cons.mpr ⟨?_, h⟩
      intro y hy
      rcases List.mem_cons.mp hy with rfl | hy'
      · exact hle
      · exact Nat.le_trans (hb y hy') hle
    next hgt =>
      refine List.pairwise_cons.mpr ⟨?_, ih hbs⟩
      intro y hy
      rcases (mem_insertDescBy key x bs y).mp hy with rfl | hy'
      · exact Nat.le_of_lt (Nat.lt_of_not_le hgt)
      · exact hb y hy'

theorem pairwise_sortDescBy (key : α → Nat) (l : List α) :
    (sortDescBy key l).Pairwise (fun a b => key b ≤ key a) := by
  induction l with
  | nil => exact List.Pairwise.nil
  | cons b bs ih => exact pairwise_insertDescBy key b _ ih

/-! ## Data Fetcher store path (`_fetch_mongodb_data`) -/

/-- The `filter_criteria` dictionary built in `_fetch_mongodb_data`:
first-match-wins per dimension (here the `elif` guards test only the
trigger, unlike the client-side filter). -/
structure FilterCriteria where
  location : Option String
  risk_appetite : Option String
  name_regex : Option String
  deriving Repr, DecidableEq

/-- `filter_criteria` construction from the lower-cased query text. -/
def build_filter_criteria (user_query : String) : FilterCriteria :=
  { location :=
      if strContains user_query "mumbai" then some "Mumbai"
      else if strContains user_query "ranchi" then some "Ranchi"
      else none
    risk_appetite :=
      if strContains user_query "conservative" then some "conservative"
      else if strContains user_query "moderate" then some "moderate"
      else if strContains user_query "aggressive" then some "aggressive"
      else none
    name_regex :=
      if strContains user_query "virat" || strContains user_query "kohli" then
        some "Virat"
      else if strContains user_query "dhoni" || strContains user_query "ms" then
        some "Dhoni"
      else if strContains user_query "rohit" || strContains user_query "sharma" then
        some "Rohit"
      else if strContains user_query "deepika" || strContains user_query "padukone" then
        some "Deepika"
      else if strContains user_query "shah rukh" || strContains user_query "khan" then
        some "Shah Rukh"
      else none }

/-- Python truthiness of the `filter_criteria` dict: nonempty iff any key was
set. -/
def FilterCriteria.isNonempty (fc : FilterCriteria) : Bool :=
  fc.location.isSome || fc.risk_appetite.isSome || fc.name_regex.isSome

/-- Case-insensitive substring match, modelling the
`$regex ..., $options: i` name condition. -/
def strContainsCI (s sub : String) : Bool :=
  strContains (strLower s) (strLower sub)

/-- A stored profile document matches the criteria dict: equality on location
and risk, case-insensitive containment for the name regex. -/
def matches_criteria (fc : FilterCriteria) (c : ClientProfile) : Bool :=
  (match fc.location with | some l => c.location == l | none => true) &&
  (match fc.risk_appetite with | some r => c.risk_appetite == r | none => true) &&
  (match fc.name_regex with | some n => strContainsCI c.name n | none => true)

/-- `_fetch_mongodb_data` success path, over a profile-store snapshot: the
store's find/sort/limit reads become filter, stable descending sort on
portfolio value, and take. -/
def fetch_mongodb_data (query_type user_query : String)
    (store : List ClientProfile) : List ClientProfile :=
  if (build_filter_criteria (strLower user_query)).isNonempty then
    (sortDescBy (fun c => c.portfolio_value)
      (store.filter (matches_criteria (build_filter_criteria (strLower user_query))))).take 20
  else if strContains query_type "top" || strContains query_type "portfolio" then
    (sortDescBy (fun c => c.portfolio_value) store).take 10
  else
    store.take 20

theorem criteria_location_isSome (uq : String) :
    (build_filter_criteria uq).location.isSome =
      (strContains uq "mumbai" || strContains uq "ranchi") := by
  unfold build_filter_criteria
  cases hm : strContains uq "mumbai" <;> cases hr : strContains uq "ranchi" <;>
    simp [hm, hr]

theorem criteria_risk_isSome (uq : String) :
    (build_filter_criteria uq).risk_appetite.isSome =
      (strContains uq "conservative" || strContains uq "moderate" ||
        strContains uq "aggressive") := by
  unfold build_filter_criteria
  cases h1 : strContains uq "conservative" <;>
    cases h2 : strContains uq "moderate" <;>
    cases h3 : strContains uq "aggressive" <;> simp [h1, h2, h3]

theorem criteria_name_isSome (uq : String) :
    (build_filter_criteria uq).name_regex.isSome =
      ((strContains uq "virat" || strContains uq "kohli") ||
        (strContains uq "dhoni" || strContains uq "ms") ||
        (strContains uq "rohit" || strContains uq "sharma") ||
        (strContains uq "deepika" || strContains uq "padukone") ||
        (strContains uq "shah rukh" || strContains uq "khan")) := by
  unfold build_filter_criteria
  cases h1 : (strContains uq "virat" || strContains uq "kohli") <;>
    cases h2 : (strContains uq "dhoni" || strContains uq "ms") <;>
    cases h3 : (strContains uq "rohit" || strContains uq "sharma") <;>
    cases h4 : (strContains uq "deepika" || strContains uq "padukone") <;>
    cases h5 : (strContains uq "shah rukh" || strContains uq "khan") <;>
    simp [h1, h2, h3, h4, h5]

/-- The criteria dict is nonempty exactly when some filter trigger fires. -/
theorem criteria_nonempty_eq_trigger (uq : String) :
    (build_filter_criteria uq).isNonempty = !(no_filter_trigger uq) := by
  unfold FilterCriteria.isNonempty no_filter_trigger
  rw [criteria_location_isSome, criteria_risk_isSome, criteria_name_isSome]
  simp only [Bool.not_not]
  ac_rfl

/-- Claim C5: profile retrieval obeys the three-way tiering — when a filter
trigger fires, a filtered read capped at 20 ordered by descending portfolio
value; else when the query type contains "top" or "portfolio", an unfiltered
read capped at 10 ordered by descending portfolio value; otherwise an
unfiltered read capped at 20 in natural order. -/
theorem claim_c5_profile_retrieval_tiering (query_type user_query : String)
    (store : List ClientProfile) :
    (no_filter_trigger (strLower user_query) = false →
      fetch_mongodb_data query_type user_query store =
        (sortDescBy (fun c => c.portfolio_value)
          (store.filter
            (matches_criteria (build_filter_criteria (strLower user_query))))).take 20 ∧
      (fetch_mongodb_data query_type user_query store).length ≤ 20 ∧
      (fetch_mongodb_data query_type user_query store).Pairwise
        (fun a b => b.portfolio_value ≤ a.portfolio_value)) ∧
    (no_filter_trigger (strLower user_query) = true →
      (strContains query_type "top" || strContains query_type "portfolio") = true →
      fetch_mongodb_data query_type user_query store =
        (sortDescBy (fun c => c.portfolio_value) store).take 10 ∧
      (fetch_mongodb_data query_type user_query store).length ≤ 10 ∧
      (fetch_mongodb_data query_type user_query store).Pairwise
        (fun a b => b.portfolio_value ≤ a.portfolio_value)) ∧
    (no_filter_trigger (strLower user_query) = true →
      (strContains query_type "top" || strContains query_type "portfolio") = false →
      fetch_mongodb_data query_type user_query store = store.take 20) := by
  have hfc := criteria_nonempty_eq_trigger (strLower user_query)
  refine ⟨fun h => ?_, fun h h2 => ?_, fun h h2 => ?_⟩
  · have hc : (build_filter_criteria (strLower user_query)).isNonempty = true := by
      rw [hfc, h]; rfl
    have heq : fetch_mongodb_data query_type user_query store =
        (sortDescBy (fun c => c.portfolio_value)
          (store.filter
            (matches_criteria (build_filter_criteria (strLower user_query))))).take 20 := by
      simp [fetch_mongodb_data, hc]
    refine ⟨heq, ?_, ?_⟩
    · rw [heq]; exact List.length_take_le _ _
    · rw [heq]
      exact List.Pairwise.sublist (List.take_sublist _ _) (pairwise_sortDescBy _ _)
  · have hc : (build_filter_criteria (strLower user_query)).isNonempty = false := by
      rw [hfc, h]; rfl
    have heq : fetch_mongodb_data query_type user_query store =
        (sortDescBy (fun c => c.portfolio_value) store).take 10 := by
      simp [fetch_mongodb_data, hc, h2]
    refine ⟨heq, ?_, ?_⟩
    · rw [heq]; exact List.length_take_le _ _
    · rw [heq]
      exact List.Pairwise.sublist (List.take_sublist _ _) (pairwise_sortDescBy _ _)
  · have hc : (build_filter_criteria (strLower user_query)).isNonempty = false := by
      rw [hfc, h]; rfl
    simp [fetch_mongodb_data, hc, h2]

/-- Witness for C5 at the query "clients from Mumbai" (location trigger
fires): the filtered, sorted, capped read is issued. -/
theorem claim_c5_profile_retrieval_tiering_witness :
    fetch_mongodb_data "client_info" "clients from Mumbai" sample_mongodb_data =
      (sortDescBy (fun c => c.portfolio_value)
        (sample_mongodb_data.filter
          (matches_criteria
            (build_filter_criteria (strLower "clients from Mumbai"))))).take 20 :=
  ((claim_c5_profile_retrieval_tiering "client_info" "clients from Mumbai"
    sample_mongodb_data).1 (by decide)).1

/-! ## Currency formatting

Python formats money cells with `f"₹{value:,}"` and the table sort parses
them back with `float(s.replace("₹", "").replace(",", ""))`.  Decimal
rendering is embedded with explicit fuel so it evaluates in the kernel;
comma grouping works on the reversed digit list. -/

/-- One decimal digit as a character. -/
def digitChar (n : Nat) : Char :=
  match n with
  | 0 => '0' | 1 => '1' | 2 => '2' | 3 => '3' | 4 => '4'
  | 5 => '5' | 6 => '6' | 7 => '7' | 8 => '8' | _ => '9'

/-- Numeric value of a decimal digit character. -/
def digitVal (c : Char) : Nat := c.toNat - 48

/-- Decimal digits of `n`, most significant first (`fuel > n` suffices). -/
def toDecimalAux : Nat → Nat → List Char
  | 0, _ => []
  | fuel + 1, n =>
    if n < 10 then [digitChar n]
    else toDecimalAux fuel (n / 10) ++ [digitChar (n % 10)]

/-- Decimal digits of `n`, most significant first. -/
def toDecimal (n : Nat) : List Char := toDecimalAux (n + 1) n

/-- Insert a comma after every three characters, working on the reversed
digit list. -/
def groupRev : List Char → List Char
  | [] => []
  | [a] => [a]
  | [a, b] => [a, b]
  | [a, b, c] => [a, b, c]
  | a :: b :: c :: d :: rest => a :: b :: c :: ',' :: groupRev (d :: rest)

/-- Thousands grouping of a digit string (Python's `{:,}` format spec). -/
def insertCommas (l : List Char) : List Char := (groupRev l.reverse).reverse

/-- Python `f"₹{value:,}"`. -/
def formatMoney (n : Nat) : String :=
  String.mk ('₹' :: insertCommas (toDecimal n))

/-- Characters surviving `s.replace("₹", "").replace(",", "")`. -/
def moneyKeep (c : Char) : Bool := !(c == '₹') && !(c == ',')

/-- Numeric value of a digit string. -/
def digitsToNat (l : List Char) : Nat :=
  l.foldl (fun acc c => acc * 10 + digitVal c) 0

/-- Python `float(s.replace("₹", "").replace(",", ""))` on the digit-only
currency strings this pipeline produces (the float is the integer value). -/
def parseMoney (s : String) : Nat :=
  digitsToNat (s.data.filter moneyKeep)

theorem digitVal_digitChar (n : Nat) (h : n < 10) :
    digitVal (digitChar n) = n := by
  interval_cases n <;> decide

theorem moneyKeep_digitChar (n : Nat) (h : n < 10) :
    moneyKeep (digitChar n) = true := by
  interval_cases n <;> decide

theorem toDecimalAux_digits :
    ∀ fuel n c, c ∈ toDecimalAux fuel n → moneyKeep c = true := by
  intro fuel
  induction fuel with
  | zero => intro n c hc; simp [toDecimalAux] at hc
  | succ f ih =>
    intro n c hc
    simp only [toDecimalAux] at hc
    split at hc
    next h10 =>
      rw [List.mem_singleton] at hc
      subst hc
      exact moneyKeep_digitChar n h10
    next h10 =>
      rcases List.mem_append.mp hc with hmem | hmem
      · exact ih _ c hmem
      · rw [List.mem_singleton] at hmem
        subst hmem
        exact moneyKeep_digitChar _ (Nat.mod_lt _ (by omega))

theorem digitsToNat_append_singleton (l : List Char) (c : Char) :
    digitsToNat (l ++ [c]) = 10 * digitsToNat l + digitVal c := by
  unfold digitsToNat
  rw [List.foldl_append]
  simp [Nat.mul_comm]

theorem digitsToNat_toDecimalAux :
    ∀ fuel n, n < fuel → digitsToNat (toDecimalAux fuel n) = n := by
  intro fuel
  induction fuel with
  | zero => intro n h; exact absurd h (Nat.not_lt_zero n)
  | succ f ih =>
    intro n h
    simp only [toDecimalAux]
    split
    next h10 =>
      show digitsToNat [digitChar n] = n
      unfold digitsToNat
      simp [digitVal_digitChar n h10]
    next h10 =>
      have hdiv : n / 10 < n := Nat.div_lt_self (by omega) (by omega)
      rw [digitsToNat_append_singleton, ih (n / 10) (by omega),
        digitVal_digitChar _ (Nat.mod_lt _ (by omega))]
      omega

theorem groupRev_filter :
    ∀ l : List Char, (∀ c ∈ l, moneyKeep c = true) →
      (groupRev l).filter moneyKeep = l := by
  intro l
  induction l using groupRev.induct with
  | case1 => intro _; rfl
  | case2 a =>
    intro h
    simp [groupRev, List.filter, h a (by simp)]
  | case3 a b =>
    intro h
    simp [groupRev, List.filter, h a (by simp), h b (by simp)]
  | case4 a b c =>
    intro h
    simp [groupRev, List.filter, h a (by simp), h b (by simp), h c (by simp)]
  | case5 a b c d rest ih =>
    intro h
    have hcomma : moneyKeep ',' = false := by decide
    simp only [groupRev, List.filter, h a (by simp), h b (by simp),
      h c (by simp), hcomma]
    rw [ih (fun x hx => h x (by simp [List.mem_cons] at hx ⊢; tauto))]

theorem insertCommas_filter (l : List Char) (h : ∀ c ∈ l, moneyKeep c = true) :
    (insertCommas l).filter moneyKeep = l := by
  unfold insertCommas
  rw [List.filter_reverse,
    groupRev_filter l.reverse (fun c hc => h c (List.mem_reverse.mp hc)),
    List.reverse_reverse]

/-- Parsing a formatted currency string recovers the value: the sort key of
a money cell is the original number. -/
theorem parseMoney_formatMoney (n : Nat) : parseMoney (formatMoney n) = n := by
  show digitsToNat (List.filter moneyKeep ('₹' :: insertCommas (toDecimal n))) = n
  have hr : moneyKeep '₹' = false := by decide
  rw [List.filter_cons_of_neg (by simp [hr]),
    insertCommas_filter (toDecimal n)
      (fun c hc => toDecimalAux_digits (n + 1) n c hc)]
  exact digitsToNat_toDecimalAux (n + 1) n (Nat.lt_succ_self n)

/-! ## Response Formatter: table data (`_format_table_data`)

Rows are Python dicts with string keys and heterogeneous values; they are
modelled as insertion-ordered association lists of cells. -/

/-- A table cell: Python `str` or `int` values. -/
inductive Cell where
  | str (s : String)
  | nat (n : Nat)
  deriving Repr, DecidableEq

/-- A table row: insertion-ordered dict from column name to cell. -/
abbrev Row := List (String × Cell)

structure TableData where
  columns : List String
  rows : List Row
  deriving Repr, DecidableEq

/-- Python `row.get(key)` (keys are unique by construction). -/
def rowLookup (r : Row) (k : String) : Option Cell :=
  (r.find? (fun kv => kv.1 == k)).map (fun kv => kv.2)

/-- Python `row.get(key, default)`. -/
def rowGetD (r : Row) (k : String) (d : Cell) : Cell :=
  (rowLookup r k).getD d

/-- Underlying string of a cell (the sort key only ever reads string
cells). -/
def cellToString : Cell → String
  | .str s => s
  | .nat n => toString n

/-- The sort key of `table_rows.sort(...)`: parse the
"Total Portfolio Value" cell, defaulting to "0" when the column is absent. -/
def table_sort_key (r : Row) : Nat :=
  parseMoney (cellToString (rowGetD r "Total Portfolio Value" (Cell.str "0")))

/-- Python `s.add(x)` on an insertion-ordered model of a set. -/
def addDistinct (l : List String) (s : String) : List String :=
  if l.contains s then l else l ++ [s]

/-- Per-client aggregation record built from transactions. -/
structure PortfolioAgg where
  total_value : Nat
  investment_types : List String
  relationship_managers : List String
  deriving Repr, DecidableEq

/-- One step of the `client_portfolios` aggregation dict update: create the
entry at the end on first sight of a client id, else update in place. -/
def updateAgg : List (String × PortfolioAgg) → Transaction →
    List (String × PortfolioAgg)
  | [], t =>
    [(t.client_id,
      { total_value := t.portfolio_value
        investment_types := [t.investment_type]
        relationship_managers := [t.relationship_manager] })]
  | (k, a) :: rest, t =>
    if k == t.client_id then
      (k, { total_value := a.total_value + t.portfolio_value
            investment_types := addDistinct a.investment_types t.investment_type
            relationship_managers :=
              addDistinct a.relationship_managers t.relationship_manager }) :: rest
    else
      (k, a) :: updateAgg rest t

/-- Aggregate transactions by client id (insertion-ordered dict). -/
def aggregate_transactions (ts : List Transaction) :
    List (String × PortfolioAgg) :=
  ts.foldl updateAgg []

/-- Python `{item["client_id"]: item for item in profiles}` lookup: the last
profile with the given id wins. -/
def profile_lookup (profiles : List ClientProfile) (cid : String) :
    Option ClientProfile :=
  profiles.foldl (fun acc p => if p.client_id == cid then some p else acc) none

/-- Row of the combined profiles-and-transactions branch. -/
def combined_row (profiles : List ClientProfile)
    (entry : String × PortfolioAgg) : Row :=
  [ ("Client ID", Cell.str entry.1),
    ("Client Name", Cell.str
      (match profile_lookup profiles entry.1 with
        | some p => p.name | none => "Unknown")),
    ("Total Portfolio Value", Cell.str (formatMoney entry.2.total_value)),
    ("Relationship Manager", Cell.str
      (String.intercalate ", " entry.2.relationship_managers)),
    ("Investment Types", Cell.str
      (String.intercalate ", " entry.2.investment_types)),
    ("Risk Appetite", Cell.str
      (match profile_lookup profiles entry.1 with
        | some p => p.risk_appetite | none => "N/A")),
    ("Location", Cell.str
      (match profile_lookup profiles entry.1 with
        | some p => p.location | none => "N/A")) ]

/-- Row of the profiles-only branch (note its value column is named
"Portfolio Value", not "Total Portfolio Value"). -/
def profile_row (c : ClientProfile) : Row :=
  [ ("Client ID", Cell.str c.client_id),
    ("Client Name", Cell.str c.name),
    ("Portfolio Value", Cell.str (formatMoney c.portfolio_value)),
    ("Risk Appetite", Cell.str c.risk_appetite),
    ("Location", Cell.str c.location),
    ("Age", Cell.nat c.age),
    ("Income Level", Cell.str c.income_level) ]

/-- Row of the transactions-only branch. -/
def transaction_row (entry : String × PortfolioAgg) : Row :=
  [ ("Client ID", Cell.str entry.1),
    ("Total Portfolio Value", Cell.str (formatMoney entry.2.total_value)),
    ("Relationship Manager", Cell.str
      (String.intercalate ", " entry.2.relationship_managers)),
    ("Investment Types", Cell.str
      (String.intercalate ", " entry.2.investment_types)) ]

/-- Python `row.get("Client Name") != "Unknown"` (a missing key compares as
`None` and is kept). -/
def row_name_not_unknown (r : Row) : Bool :=
  match rowLookup r "Client Name" with
  | some (Cell.str s) => !(s == "Unknown")
  | some (Cell.nat _) => true
  | none => true

/-- `_format_table_data`: branch on which data categories are present, sort
by the parsed "Total Portfolio Value" cell descending, drop rows whose
client name is "Unknown", read columns off the first remaining row, cap at
20 rows. -/
def format_table_data (raw : RawData) : TableData :=
  let table_rows : List Row :=
    match raw.client_profiles, raw.transactions with
    | some profiles, some ts =>
      (aggregate_transactions ts).map (combined_row profiles)
    | some profiles, none => profiles.map profile_row
    | none, some ts => (aggregate_transactions ts).map transaction_row
    | none, none => []
  let kept := (sortDescBy table_sort_key table_rows).filter row_name_not_unknown
  { columns := match kept.head? with | some r => r.map Prod.fst | none => []
    rows := kept.take 20 }

/-! ### Claim C3 — the profiles-only sort slip -/

/-- Executable check that a list is in descending key order. -/
def is_descending_by (key : α → Nat) : List α → Bool
  | [] => true
  | [_] => true
  | a :: b :: rest => (key b ≤ key a) && is_descending_by key (b :: rest)

/-- The profiles-only branch's value column, parsed the way the sort key
parses money cells. -/
def profile_value_key (r : Row) : Nat :=
  parseMoney (cellToString (rowGetD r "Portfolio Value" (Cell.str "0")))

def lowValueClient : ClientProfile :=
  { client_id := "C101", name := "Asha Rao", portfolio_value := 10
    risk_appetite := "moderate", location := "Mumbai", age := 30
    income_level := "high" }

def highValueClient : ClientProfile :=
  { client_id := "C102", name := "Bir Singh", portfolio_value := 20
    risk_appetite := "conservative", location := "Ranchi", age := 45
    income_level := "high" }

/-- Raw data exercising the profiles-only branch with values in ascending
fetch order. -/
def profiles_only_example : RawData :=
  { client_profiles := some [lowValueClient, highValueClient]
    transactions := none }

/-- Claim C3, code-level evidence: in the profiles-only branch the value
column is named "Portfolio Value" while the sort key reads
"Total Portfolio Value", so every sort key defaults to 0 and the stable sort
keeps the rows in fetch order — here ascending [10, 20], not descending as
the claim (and the code's own sort comment) require. -/
theorem claim_c3_table_sort_bug_eval :
    ((format_table_data profiles_only_example).rows.map profile_value_key
        = [10, 20]) ∧
    is_descending_by profile_value_key
        (format_table_data profiles_only_example).rows = false ∧
    ((format_table_data profiles_only_example).rows.map table_sort_key
        = [0, 0]) := by
  decide

/-! ### Claim C9 — combined-branch rows come only from transaction ids -/

theorem mem_keys_updateAgg (m : List (String × PortfolioAgg))
    (t : Transaction) (k : String) :
    k ∈ (updateAgg m t).map Prod.fst ↔
      k ∈ m.map Prod.fst ∨ k = t.client_id := by
  induction m with
  | nil => simp [updateAgg]
  | cons ka rest ih =>
    obtain ⟨k', a⟩ := ka
    simp only [updateAgg]
    split
    next h =>
      have hk : k' = t.client_id := by simpa using h
      subst hk
      simp [List.mem_cons]
      tauto
    next h =>
      simp only [List.map_cons, List.mem_cons, ih]
      tauto

theorem mem_keys_aggregate :
    ∀ (ts : List Transaction) (m : List (String × PortfolioAgg)) (k : String),
      k ∈ (ts.foldl updateAgg m).map Prod.fst ↔
        k ∈ m.map Prod.fst ∨ k ∈ ts.map (fun t => t.client_id) := by
  intro ts
  induction ts with
  | nil => simp
  | cons t ts ih =>
    intro m k
    simp only [List.foldl_cons]
    rw [ih, mem_keys_updateAgg]
    simp [List.mem_cons]
    tauto

/-- Claim C9: when both client profiles and transactions are present, every
table row's client id is the client id of some fetched transaction; a
profile with no transaction contributes no row. -/
theorem claim_c9_table_rows_from_transactions
    (profiles : List ClientProfile) (ts : List Transaction) (r : Row)
    (hr : r ∈ (format_table_data
      { client_profiles := some profiles, transactions := some ts }).rows) :
    ∃ t ∈ ts, rowLookup r "Client ID" = some (Cell.str t.client_id) := by
  simp only [format_table_data] at hr
  have h1 := List.mem_of_mem_take hr
  have h2 := (List.mem_filter.mp h1).1
  have h3 := (mem_sortDescBy table_sort_key _ r).mp h2
  obtain ⟨entry, hentry, hre⟩ := List.mem_map.mp h3
  have hkey : entry.1 ∈ (aggregate_transactions ts).map Prod.fst :=
    List.mem_map_of_mem Prod.fst hentry
  have hcid : entry.1 ∈ ts.map (fun t => t.client_id) := by
    have := (mem_keys_aggregate ts [] entry.1).mp hkey
    simpa using this
  obtain ⟨t, ht, hteq⟩ := List.mem_map.mp hcid
  refine ⟨t, ht, ?_⟩
  rw [← hre]
  simp [combined_row, rowLookup, hteq]

/-- The single transaction used by the C9 witness. -/
def singleTxn : Transaction :=
  { client_id := "C101", portfolio_value := 5
    relationship_manager := "Asha Manager", investment_type := "Equity" }

/-- The single table row produced for the C9 witness data. -/
def c9_witness_row : Row :=
  combined_row [lowValueClient]
    ("C101", { total_value := 5, investment_types := ["Equity"]
               relationship_managers := ["Asha Manager"] })

/-- Witness for C9 at one profile and one transaction. -/
theorem claim_c9_table_rows_from_transactions_witness :
    ∃ t ∈ [singleTxn],
      rowLookup c9_witness_row "Client ID" = some (Cell.str t.client_id) :=
  claim_c9_table_rows_from_transactions [lowValueClient] [singleTxn]
    c9_witness_row (by decide)

/-! ## Chart Data Builder (`_generate_chart_data` and helpers) -/

/-- One entry of a chart's `datasets` list (optional fields mirror the keys
each chart type actually emits). -/
structure ChartDataset where
  label : Option String := none
  data : List Nat
  backgroundColor : List String := []
  borderColor : Option String := none
  fill : Option Bool := none
  deriving Repr, DecidableEq

/-- A chart descriptor. -/
structure ChartData where
  type : String
  title : Option String := none
  labels : List String
  datasets : List ChartDataset
  deriving Repr, DecidableEq

/-- The fixed colour palette used by every chart. -/
def chartColors : List String :=
  ["#FF6384", "#36A2EB", "#FFCE56", "#4BC0C0", "#9966FF"]

/-- Python `d[k] = d.get(k, 0) + v` on an insertion-ordered dict. -/
def addToGroup (m : List (String × Nat)) (k : String) (v : Nat) :
    List (String × Nat) :=
  match m with
  | [] => [(k, v)]
  | (k', v') :: rest =>
    if k' == k then (k', v' + v) :: rest else (k', v') :: addToGroup rest k v

/-- Python `d[k] = v` on an insertion-ordered dict (overwrite, keep
position). -/
def setGroup (m : List (String × Nat)) (k : String) (v : Nat) :
    List (String × Nat) :=
  match m with
  | [] => [(k, v)]
  | (k', v') :: rest =>
    if k' == k then (k', v) :: rest else (k', v') :: setGroup rest k v

/-- `manager_portfolios`: portfolio value summed by relationship manager. -/
def manager_portfolios (ts : List Transaction) : List (String × Nat) :=
  ts.foldl (fun m t => addToGroup m t.relationship_manager t.portfolio_value) []

/-- `investment_breakdown`: portfolio value summed by investment type. -/
def investment_breakdown (ts : List Transaction) : List (String × Nat) :=
  ts.foldl (fun m t => addToGroup m t.investment_type t.portfolio_value) []

/-- `risk_breakdown`: portfolio value summed by risk appetite. -/
def risk_breakdown (ps : List ClientProfile) : List (String × Nat) :=
  ps.foldl (fun m c => addToGroup m c.risk_appetite c.portfolio_value) []

/-- `client_portfolios` of the bar chart's profile branch: note the code
assigns (`= value`), it does not accumulate. -/
def client_name_portfolios (ps : List ClientProfile) : List (String × Nat) :=
  ps.foldl (fun m c => setGroup m c.name c.portfolio_value) []

/-- `_get_filtered_data_for_charts`: re-apply the keyword filter to the
fetched profiles and keep only transactions of surviving client ids (all
transactions when no profiles were fetched).  The pipeline always stores the
raw query text in the analysis (`process_query` line 65), so the
missing-`user_query` early return is not modelled. -/
def get_filtered_data_for_charts (raw : RawData) (user_query : String) :
    RawData :=
  let uq := strLower user_query
  let fprofiles := raw.client_profiles.map
    (fun ps => ps.filter (client_keyword_filter uq))
  { client_profiles := fprofiles
    transactions :=
      match raw.transactions, fprofiles with
      | some ts, some ps =>
        some (ts.filter
          (fun t => (ps.map (fun c => c.client_id)).contains t.client_id))
      | some ts, none => some ts
      | none, _ => none }

/-- The empty bar chart returned when no grouping produced data. -/
def emptyBarChart : ChartData :=
  { type := "bar", title := none, labels := [], datasets := [] }

/-- The profile-grouping fallback of the bar chart (grouped by client
name). -/
def bar_profile_fallback (fd : RawData) : ChartData :=
  match fd.client_profiles with
  | some ps =>
    if (client_name_portfolios ps).isEmpty then emptyBarChart
    else
      { type := "bar", title := some "Client Portfolio Values"
        labels := (client_name_portfolios ps).map Prod.fst
        datasets := [{ label := some "Portfolio Value (₹)"
                       data := (client_name_portfolios ps).map Prod.snd
                       backgroundColor := chartColors }] }
  | none => emptyBarChart

/-- `_create_bar_chart_data`: group filtered transactions by relationship
manager; fall through to client-name grouping of filtered profiles when that
produces nothing. -/
def create_bar_chart_data (raw : RawData) (user_query : String) : ChartData :=
  let fd := get_filtered_data_for_charts raw user_query
  match fd.transactions with
  | some ts =>
    if (manager_portfolios ts).isEmpty then bar_profile_fallback fd
    else
      { type := "bar", title := some "Portfolio Values by Relationship Manager"
        labels := (manager_portfolios ts).map Prod.fst
        datasets := [{ label := some "Portfolio Value (₹)"
                       data := (manager_portfolios ts).map Prod.snd
                       backgroundColor := chartColors }] }
  | none => bar_profile_fallback fd

/-- The empty pie chart returned when no grouping produced data. -/
def emptyPieChart : ChartData :=
  { type := "pie", title := none, labels := [], datasets := [] }

/-- The profile-grouping fallback of the pie chart (grouped by risk
appetite). -/
def pie_profile_fallback (fd : RawData) : ChartData :=
  match fd.client_profiles with
  | some ps =>
    if (risk_breakdown ps).isEmpty then emptyPieChart
    else
      { type := "pie", title := some "Portfolio Breakdown by Risk Appetite"
        labels := (risk_breakdown ps).map Prod.fst
        datasets := [{ data := (risk_breakdown ps).map Prod.snd
                       backgroundColor := chartColors }] }
  | none => emptyPieChart

/-- `_create_pie_chart_data`: group filtered transactions by investment type;
fall through to risk-appetite grouping of filtered profiles. -/
def create_pie_chart_data (raw : RawData) (user_query : String) : ChartData :=
  let fd := get_filtered_data_for_charts raw user_query
  match fd.transactions with
  | some ts =>
    if (investment_breakdown ts).isEmpty then pie_profile_fallback fd
    else
      { type := "pie", title := some "Portfolio Breakdown by Investment Type"
        labels := (investment_breakdown ts).map Prod.fst
        datasets := [{ data := (investment_breakdown ts).map Prod.snd
                       backgroundColor := chartColors }] }
  | none => pie_profile_fallback fd

/-- `_create_line_chart_data`: the fixed illustrative five-point series. -/
def create_line_chart_data : ChartData :=
  { type := "line", title := some "Portfolio Performance Over Time"
    labels := ["Jan", "Feb", "Mar", "Apr", "May"]
    datasets := [{ label := some "Portfolio Growth"
                   data := [10000000, 12000000, 11500000, 13000000, 14500000]
                   borderColor := some "#36A2EB", fill := some false }] }

/-- `_generate_chart_data`: dispatch on the intent's visualization type,
defaulting every unrecognized value to the bar chart. -/
def generate_chart_data (raw : RawData) (user_query visualization_type : String) :
    ChartData :=
  if visualization_type == "pie_chart" then create_pie_chart_data raw user_query
  else if visualization_type == "line_chart" then create_line_chart_data
  else create_bar_chart_data raw user_query

theorem bar_profile_fallback_type (fd : RawData) :
    (bar_profile_fallback fd).type = "bar" := by
  unfold bar_profile_fallback
  cases fd.client_profiles with
  | none => rfl
  | some ps =>
    simp only []
    split <;> rfl

theorem create_bar_chart_type (raw : RawData) (q : String) :
    (create_bar_chart_data raw q).type = "bar" := by
  simp only [create_bar_chart_data]
  split
  · split
    · exact bar_profile_fallback_type _
    · rfl
  · exact bar_profile_fallback_type _

/-- Claim C10: for every fetched dataset and query text, any visualization
type other than "pie_chart" and "line_chart" — including "table", "text",
and unrecognized values — routes to the bar-chart builder, whose result
always carries the chart type "bar". -/
theorem claim_c10_chart_default_bar (raw : RawData) (q viz : String)
    (h1 : viz ≠ "pie_chart") (h2 : viz ≠ "line_chart") :
    generate_chart_data raw q viz = create_bar_chart_data raw q ∧
    (generate_chart_data raw q viz).type = "bar" := by
  have heq : generate_chart_data raw q viz = create_bar_chart_data raw q := by
    simp [generate_chart_data, h1, h2]
  exact ⟨heq, heq ▸ create_bar_chart_type raw q⟩

/-- Witness for C10 at visualization type "table". -/
theorem claim_c10_chart_default_bar_witness :
    generate_chart_data profiles_only_example "portfolio" "table" =
      create_bar_chart_data profiles_only_example "portfolio" ∧
    (generate_chart_data profiles_only_example "portfolio" "table").type =
      "bar" :=
  claim_c10_chart_default_bar profiles_only_example "portfolio" "table"
    (by decide) (by decide)

/-! ### Claim C6 — end-to-end scenario A -/

/-- `_get_sample_mysql_data`: the fixed 13-record transaction sample set. -/
def sample_mysql_data : List Transaction :=
  [ { client_id := "C001", portfolio_value := 25000000
      relationship_manager := "Amit Kumar", investment_type := "Equity" },
    { client_id := "C001", portfolio_value := 15000000
      relationship_manager := "Amit Kumar", investment_type := "Bonds" },
    { client_id := "C001", portfolio_value := 10000000
      relationship_manager := "Amit Kumar", investment_type := "Mutual Funds" },
    { client_id := "C002", portfolio_value := 40000000
      relationship_manager := "Priya Singh", investment_type := "Mutual Funds" },
    { client_id := "C002", portfolio_value := 20000000
      relationship_manager := "Priya Singh", investment_type := "Fixed Deposits" },
    { client_id := "C002", portfolio_value := 15000000
      relationship_manager := "Priya Singh", investment_type := "Real Estate" },
    { client_id := "C003", portfolio_value := 30000000
      relationship_manager := "Rajesh Mehta", investment_type := "Bonds" },
    { client_id := "C003", portfolio_value := 15000000
      relationship_manager := "Rajesh Mehta", investment_type := "Equity" },
    { client_id := "C004", portfolio_value := 35000000
      relationship_manager := "Neha Gupta", investment_type := "Real Estate" },
    { client_id := "C004", portfolio_value := 25000000
      relationship_manager := "Neha Gupta", investment_type := "Mutual Funds" },
    { client_id := "C005", portfolio_value := 50000000
      relationship_manager := "Amit Kumar", investment_type := "Mixed Portfolio" },
    { client_id := "C005", portfolio_value := 30000000
      relationship_manager := "Amit Kumar", investment_type := "International Funds" },
    { client_id := "C005", portfolio_value := 20000000
      relationship_manager := "Amit Kumar", investment_type := "Equity" } ]

/-- Scenario A's query. -/
def scenario_a_query : String :=
  "What are the top five portfolios of our wealth members?"

/-- Scenario A data: both stores answered with their sample sets. -/
def scenario_a_raw : RawData :=
  { client_profiles := some sample_mongodb_data
    transactions := some sample_mysql_data }

/-- Counterexample to claim C6: with transactions present (as they always
are for this scenario — even the store-error path substitutes 13 sample
records), the bar chart groups by relationship manager, not by client name:
its labels are the four manager names, and the client name "Virat Kohli"
present in the profile data does not appear. -/
theorem claim_c6_scenario_a_counterexample :
    (create_bar_chart_data scenario_a_raw scenario_a_query).title =
      some "Portfolio Values by Relationship Manager" ∧
    (create_bar_chart_data scenario_a_raw scenario_a_query).labels =
      ["Amit Kumar", "Priya Singh", "Rajesh Mehta", "Neha Gupta"] ∧
    ((create_bar_chart_data scenario_a_raw scenario_a_query).labels.contains
      "Virat Kohli") = false ∧
    ((sample_mongodb_data.map (fun c => c.name)).contains "Virat Kohli") =
      true := by
  decide

/-- Claim C6 (amended): for scenario A's query with classification
unavailable, the fallback yields `top_performers` with a bar visualization;
for every store snapshot the fetcher returns at most 10 profiles in
descending portfolio-value order; and the resulting bar chart groups
portfolio values by relationship manager (transactions are present for this
scenario; grouping by client name happens only when no fetched transaction
contributes). -/
theorem claim_c6_scenario_a_amended :
    (fallback_query_analysis scenario_a_query).query_type = "top_performers" ∧
    (fallback_query_analysis scenario_a_query).visualization_type =
      "bar_chart" ∧
    (∀ store : List ClientProfile,
      (fetch_mongodb_data "top_performers" scenario_a_query store).length ≤ 10 ∧
      (fetch_mongodb_data "top_performers" scenario_a_query store).Pairwise
        (fun a b => b.portfolio_value ≤ a.portfolio_value)) ∧
    create_bar_chart_data scenario_a_raw scenario_a_query =
      { type := "bar", title := some "Portfolio Values by Relationship Manager"
        labels := ["Amit Kumar", "Priya Singh", "Rajesh Mehta", "Neha Gupta"]
        datasets := [{ label := some "Portfolio Value (₹)"
                       data := [150000000, 75000000, 45000000, 60000000]
                       backgroundColor := chartColors }] } := by
  refine ⟨by decide, by decide, ?_, by decide⟩
  intro store
  have hc : (build_filter_criteria (strLower scenario_a_query)).isNonempty =
      false := by decide
  have ht : (strContains "top_performers" "top" ||
      strContains "top_performers" "portfolio") = true := by decide
  have heq : fetch_mongodb_data "top_performers" scenario_a_query store =
      (sortDescBy (fun c => c.portfolio_value) store).take 10 := by
    simp [fetch_mongodb_data, hc, ht]
  constructor
  · rw [heq]; exact List.length_take_le _ _
  · rw [heq]
    exact List.Pairwise.sublist (List.take_sublist _ _) (pairwise_sortDescBy _ _)

/-! ### Claim C2 — table and chart populations -/

/-- The client id a table row exhibits (its "Client ID" cell). -/
def row_client_id (r : Row) : Option String :=
  match rowLookup r "Client ID" with
  | some (Cell.str s) => some s
  | _ => none

/-- Client ids contributing rows to the table output. -/
def table_client_ids (raw : RawData) : List String :=
  (format_table_data raw).rows.filterMap row_client_id

/-- Client ids of the records whose values the bar/pie chart sums: all
filtered transactions when any survive, else the filtered profiles (the
record population of `_create_bar_chart_data` / `_create_pie_chart_data`
after `_get_filtered_data_for_charts`). -/
def chart_source_ids (raw : RawData) (user_query : String) : List String :=
  let fd := get_filtered_data_for_charts raw user_query
  match fd.transactions with
  | some ts =>
    if ts.isEmpty then
      match fd.client_profiles with
      | some ps => ps.map (fun c => c.client_id)
      | none => []
    else ts.map (fun t => t.client_id)
  | none =>
    match fd.client_profiles with
    | some ps => ps.map (fun c => c.client_id)
    | none => []

/-- The query of the C2 counterexample: both an "aggressive" risk trigger
and a "ranchi" location trigger fire, and no sample profile satisfies
both. -/
def c2_query : String := "aggressive ranchi"

/-- C2 counterexample data: the profile fetch failed over to the sample
fallback, whose fail-open branch returned the full unfiltered 5-record
sample set; the transaction store answered with its sample set. -/
def c2_raw : RawData :=
  { client_profiles := some (get_filtered_sample_mongodb_data c2_query)
    transactions := some sample_mysql_data }

/-- Counterexample to claim C2: after the fail-open profile fallback, client
C001 contributes a row to the table, but the chart's re-applied filter
excludes every profile (none is both aggressive and in Ranchi), so C001
contributes nothing to the chart — the two populations differ. -/
theorem claim_c2_population_counterexample :
    ((table_client_ids c2_raw).contains "C001") = true ∧
    ((chart_source_ids c2_raw c2_query).contains "C001") = false := by
  decide

theorem length_updateAgg_le (m : List (String × PortfolioAgg))
    (t : Transaction) : (updateAgg m t).length ≤ m.length + 1 := by
  induction m with
  | nil => simp [updateAgg]
  | cons ka rest ih =>
    obtain ⟨k, a⟩ := ka
    simp only [updateAgg]
    split
    · simp
    · simpa using Nat.succ_le_succ ih

theorem length_foldl_updateAgg :
    ∀ (ts : List Transaction) (m : List (String × PortfolioAgg)),
      (List.foldl updateAgg m ts).length ≤ m.length + ts.length := by
  intro ts
  induction ts with
  | nil => intro m; simp
  | cons t ts ih =>
    intro m
    simp only [List.foldl_cons]
    calc (List.foldl updateAgg (updateAgg m t) ts).length
        ≤ (updateAgg m t).length + ts.length := ih (updateAgg m t)
      _ ≤ m.length + 1 + ts.length :=
          Nat.add_le_add_right (length_updateAgg_le m t) ts.length
      _ = m.length + (t :: ts).length := by simp; omega

theorem length_aggregate_le (ts : List Transaction) :
    (aggregate_transactions ts).length ≤ ts.length := by
  have := length_foldl_updateAgg ts []
  simpa [aggregate_transactions] using this

theorem profile_lookup_foldl_isSome :
    ∀ (ps : List ClientProfile) (cid : String) (acc : Option ClientProfile),
      (ps.foldl
        (fun a p => if p.client_id == cid then some p else a) acc).isSome ↔
        acc.isSome = true ∨ ∃ p ∈ ps, p.client_id = cid := by
  intro ps
  induction ps with
  | nil => intro cid acc; simp
  | cons p rest ih =>
    intro cid acc
    simp only [List.foldl_cons]
    rw [ih]
    by_cases hpc : p.client_id = cid
    · simp [hpc]
    · have : (p.client_id == cid) = false := by simpa using hpc
      simp [this, hpc]

theorem profile_lookup_isSome_iff (ps : List ClientProfile) (cid : String) :
    (profile_lookup ps cid).isSome ↔
      cid ∈ ps.map (fun c => c.client_id) := by
  unfold profile_lookup
  rw [profile_lookup_foldl_isSome]
  simp [eq_comm]

theorem profile_lookup_foldl_some :
    ∀ (ps : List ClientProfile) (cid : String) (acc : Option ClientProfile)
      (p : ClientProfile),
      ps.foldl (fun a q => if q.client_id == cid then some q else a) acc =
        some p →
      acc = some p ∨ (p ∈ ps ∧ p.client_id = cid) := by
  intro ps
  induction ps with
  | nil => intro cid acc p h; exact Or.inl h
  | cons q rest ih =>
    intro cid acc p h
    simp only [List.foldl_cons] at h
    rcases ih cid _ p h with hstep | hrest
    · by_cases hqc : (q.client_id == cid) = true
      · rw [if_pos hqc] at hstep
        obtain rfl := Option.some.inj hstep
        exact Or.inr ⟨List.mem_cons_self _ _, by simpa using hqc⟩
      · rw [if_neg hqc] at hstep
        exact Or.inl hstep
    · exact Or.inr ⟨List.mem_cons_of_mem q hrest.1, hrest.2⟩

theorem profile_lookup_some (ps : List ClientProfile) (cid : String)
    (p : ClientProfile) (h : profile_lookup ps cid = some p) :
    p ∈ ps ∧ p.client_id = cid := by
  rcases profile_lookup_foldl_some ps cid none p h with hnone | hok
  · exact absurd hnone (by simp)
  · exact hok

theorem rowLookup_combined_cid (profiles : List ClientProfile)
    (entry : String × PortfolioAgg) :
    rowLookup (combined_row profiles entry) "Client ID" =
      some (Cell.str entry.1) := rfl

theorem row_client_id_combined (profiles : List ClientProfile)
    (entry : String × PortfolioAgg) :
    row_client_id (combined_row profiles entry) = some entry.1 := rfl

theorem row_name_not_unknown_combined (profiles : List ClientProfile)
    (entry : String × PortfolioAgg) :
    row_name_not_unknown (combined_row profiles entry) =
      !((match profile_lookup profiles entry.1 with
          | some p => p.name | none => "Unknown") == "Unknown") := rfl

/-- Claim C2 (amended): table and chart populations coincide provided every
fetched profile satisfies the compiled filter (in particular, when the
fail-open sample substitution did not occur), no fetched profile is named
"Unknown", at least one fetched transaction belongs to a fetched profile,
and at most 20 transactions were fetched (the transaction read's cap, which
keeps the table's 20-row cut inert). -/
theorem claim_c2_population_amended
    (profiles : List ClientProfile) (ts : List Transaction) (q : String)
    (hfilter : ∀ p ∈ profiles, client_keyword_filter (strLower q) p = true)
    (hname : ∀ p ∈ profiles, p.name ≠ "Unknown")
    (hsome : ∃ t ∈ ts, t.client_id ∈ profiles.map (fun c => c.client_id))
    (hlen : ts.length ≤ 20) (cid : String) :
    (cid ∈ table_client_ids
        { client_profiles := some profiles, transactions := some ts } ↔
      cid ∈ chart_source_ids
        { client_profiles := some profiles, transactions := some ts } q) := by
  have hfeq : profiles.filter (client_keyword_filter (strLower q)) = profiles :=
    List.filter_eq_self.mpr hfilter
  have hfd : get_filtered_data_for_charts
      { client_profiles := some profiles, transactions := some ts } q =
      { client_profiles := some profiles
        transactions := some (ts.filter (fun t =>
          (profiles.map (fun c => c.client_id)).contains t.client_id)) } := by
    simp [get_filtered_data_for_charts, hfeq]
  have htsne : ts.filter (fun t =>
      (profiles.map (fun c => c.client_id)).contains t.client_id) ≠ [] := by
    obtain ⟨t, htmem, htid⟩ := hsome
    intro hnil
    have hmem : t ∈ ts.filter (fun t =>
        (profiles.map (fun c => c.client_id)).contains t.client_id) :=
      List.mem_filter.mpr ⟨htmem, by simpa [List.contains] using htid⟩
    rw [hnil] at hmem
    exact absurd hmem (List.not_mem_nil t)
  have hchart : chart_source_ids
      { client_profiles := some profiles, transactions := some ts } q =
      (ts.filter (fun t =>
        (profiles.map (fun c => c.client_id)).contains t.client_id)).map
        (fun t => t.client_id) := by
    simp only [chart_source_ids, hfd]
    cases hcase : ts.filter (fun t =>
        (profiles.map (fun c => c.client_id)).contains t.client_id) with
    | nil => exact absurd hcase htsne
    | cons a l => simp
  have hchart_mem : cid ∈ (ts.filter (fun t =>
      (profiles.map (fun c => c.client_id)).contains t.client_id)).map
        (fun t => t.client_id) ↔
      (cid ∈ ts.map (fun t => t.client_id) ∧
        cid ∈ profiles.map (fun p => p.client_id)) := by
    rw [List.mem_map]
    constructor
    · rintro ⟨t, htf, rfl⟩
      obtain ⟨hts, hcont⟩ := List.mem_filter.mp htf
      exact ⟨List.mem_map_of_mem _ hts, by simpa [List.contains] using hcont⟩
    · rintro ⟨h1, h2⟩
      obtain ⟨t, hts, rfl⟩ := List.mem_map.mp h1
      exact ⟨t, List.mem_filter.mpr ⟨hts, by simpa [List.contains] using h2⟩, rfl⟩
  have hrows : (format_table_data
      { client_profiles := some profiles, transactions := some ts }).rows =
      (sortDescBy table_sort_key
        ((aggregate_transactions ts).map (combined_row profiles))).filter
        row_name_not_unknown := by
    simp only [format_table_data]
    apply List.take_of_length_le
    calc ((sortDescBy table_sort_key
            ((aggregate_transactions ts).map (combined_row profiles))).filter
            row_name_not_unknown).length
        ≤ (sortDescBy table_sort_key
            ((aggregate_transactions ts).map (combined_row profiles))).length :=
          List.length_filter_le _ _
      _ = (aggregate_transactions ts).length := by
          rw [length_sortDescBy, List.length_map]
      _ ≤ ts.length := length_aggregate_le ts
      _ ≤ 20 := hlen
  have hmem_row : ∀ r, r ∈ (format_table_data
      { client_profiles := some profiles, transactions := some ts }).rows ↔
      ∃ entry ∈ aggregate_transactions ts,
        combined_row profiles entry = r ∧ row_name_not_unknown r = true := by
    intro r
    rw [hrows, List.mem_filter, mem_sortDescBy, List.mem_map]
    constructor
    · rintro ⟨⟨entry, hentry, rfl⟩, hok⟩
      exact ⟨entry, hentry, rfl, hok⟩
    · rintro ⟨entry, hentry, rfl, hok⟩
      exact ⟨⟨entry, hentry, rfl⟩, hok⟩
  have hnameok : ∀ k : String,
      (!((match profile_lookup profiles k with
          | some p => p.name | none => "Unknown") == "Unknown")) = true ↔
        k ∈ profiles.map (fun p => p.client_id) := by
    intro k
    cases hlk : profile_lookup profiles k with
    | some p =>
      have hp := profile_lookup_some profiles k p hlk
      have hpn : p.name ≠ "Unknown" := hname p hp.1
      have hks : k ∈ profiles.map (fun p => p.client_id) :=
        (profile_lookup_isSome_iff profiles k).mp (by rw [hlk]; rfl)
      simp [hpn, hks]
    | none =>
      have hks : k ∉ profiles.map (fun p => p.client_id) := by
        intro hk
        have := (profile_lookup_isSome_iff profiles k).mpr hk
        rw [hlk] at this
        exact absurd this (by simp)
      simp [hks]
  have htable_mem : cid ∈ table_client_ids
      { client_profiles := some profiles, transactions := some ts } ↔
      (cid ∈ ts.map (fun t => t.client_id) ∧
        cid ∈ profiles.map (fun p => p.client_id)) := by
    unfold table_client_ids
    rw [List.mem_filterMap]
    constructor
    · rintro ⟨r, hr, hre⟩
      obtain ⟨entry, hentry, rfl, hok⟩ := (hmem_row r).mp hr
      rw [row_client_id_combined] at hre
      obtain rfl := Option.some.inj hre
      constructor
      · have hkey : entry.1 ∈ (aggregate_transactions ts).map Prod.fst :=
          List.mem_map_of_mem Prod.fst hentry
        have hks := (mem_keys_aggregate ts [] entry.1).mp
          (by simpa [aggregate_transactions] using hkey)
        simpa using hks
      · rw [row_name_not_unknown_combined] at hok
        exact (hnameok entry.1).mp hok
    · rintro ⟨hcid_ts, hcid_prof⟩
      have hkey : cid ∈ (aggregate_transactions ts).map Prod.fst := by
        have := (mem_keys_aggregate ts [] cid).mpr (Or.inr hcid_ts)
        simpa [aggregate_transactions] using this
      obtain ⟨entry, hentry, hfst⟩ := List.mem_map.mp hkey
      refine ⟨combined_row profiles entry, ?_, ?_⟩
      · apply (hmem_row _).mpr
        refine ⟨entry, hentry, rfl, ?_⟩
        rw [row_name_not_unknown_combined]
        exact (hnameok entry.1).mpr (by rw [hfst]; exact hcid_prof)
      · rw [row_client_id_combined, hfst]
  rw [htable_mem, hchart, hchart_mem]

/-- Witness for C2 (amended) at one profile and one matching transaction
under a trigger-free query. -/
theorem claim_c2_population_amended_witness :
    ("C101" ∈ table_client_ids
        { client_profiles := some [lowValueClient]
          transactions := some [singleTxn] } ↔
      "C101" ∈ chart_source_ids
        { client_profiles := some [lowValueClient]
          transactions := some [singleTxn] } "show data") :=
  claim_c2_population_amended [lowValueClient] [singleTxn] "show data"
    (by decide) (by decide) (by decide) (by decide) "C101"

/-! ## Error recovery (`_analyze_query_intent`, `process_query`'s top-level
`try`/`except`, and the router's error branch) -/

/-- The JSON object a successful `json.loads` yields: the source imposes no
schema, so every descriptor field may be absent. -/
structure ParsedIntent where
  query_type : Option String := none
  data_sources : Option (List String) := none
  visualization_type : Option String := none
  key_entities : Option (List String) := none
  intent_summary : Option String := none
  suggested_aggregations : Option (List String) := none
  deriving Repr, DecidableEq

/-- Outcome of the classification call plus fence extraction and
`json.loads`: `.failure` is any exception inside the `try` block (network
error, malformed JSON); `.parsed` is a successfully parsed object, which the
source returns without any field validation. -/
inductive ClassificationOutcome where
  | failure (msg : String)
  | parsed (analysis : ParsedIntent)
  deriving Repr, DecidableEq

/-- View of a complete descriptor as a parsed object with every field
present (the shape of the fallback classifier's return value). -/
def IntentDescriptor.toParsedIntent (d : IntentDescriptor) : ParsedIntent :=
  { query_type := some d.query_type
    data_sources := some d.data_sources
    visualization_type := some d.visualization_type
    key_entities := some d.key_entities
    intent_summary := some d.intent_summary
    suggested_aggregations := some d.suggested_aggregations }

/-- `_analyze_query_intent`: an exception (network or parse failure) falls
back to the rule-based classifier; a successfully parsed object is returned
as-is, missing fields included. -/
def analyze_query_intent (outcome : ClassificationOutcome)
    (user_query : String) : ParsedIntent :=
  match outcome with
  | .parsed analysis => analysis
  | .failure _ => (fallback_query_analysis user_query).toParsedIntent

/-- The dictionary `process_query` returns (the fields the router reads). -/
structure PipelineResult where
  error : Bool
  message : Option String
  text_response : String
  table_data : Option TableData
  chart_data : Option ChartData
  deriving Repr, DecidableEq

/-- The top-level `try`/`except` of `process_query`: a pipeline-level
exception (abstracted as `.error` carrying `str(e)`) becomes the error
dictionary instead of propagating. -/
def process_query_top (outcome : Except String PipelineResult) :
    PipelineResult :=
  match outcome with
  | .ok r => r
  | .error e =>
    { error := true, message := some e
      text_response := "Error processing query"
      table_data := none, chart_data := none }

/-- The HTTP-layer response model (`QueryResponse`). -/
structure QueryResponse where
  success : Bool
  text_response : String
  table_data : Option TableData
  chart_data : Option ChartData
  error_message : Option String
  deriving Repr, DecidableEq

/-- `process_natural_language_query`'s handling of the pipeline result: an
error dict becomes a `success := false` response with the generic apology
text and the error detail, never a transport-level fault. -/
def route_query_result (r : PipelineResult) : QueryResponse :=
  if r.error then
    { success := false
      text_response := "I'm sorry, I couldn't process your query at this time."
      table_data := none, chart_data := none
      error_message := some (r.message.getD "Processing error") }
  else
    { success := true, text_response := r.text_response
      table_data := r.table_data, chart_data := r.chart_data
      error_message := none }

/-- A classification response that parses to the empty JSON object. -/
def empty_parsed_intent : ParsedIntent := {}

/-- Counterexample to claim C8: a successfully parsed classification
response missing every field is returned as-is — its query type is absent —
while the rule-based fallback for the same query would carry
`top_performers`; the source performs no missing-field recovery after
`json.loads` succeeds. -/
theorem claim_c8_missing_field_counterexample :
    analyze_query_intent (ClassificationOutcome.parsed empty_parsed_intent)
      "show top clients" = empty_parsed_intent ∧
    empty_parsed_intent.query_type = none ∧
    (fallback_query_analysis "show top clients").toParsedIntent.query_type =
      some "top_performers" := by
  decide

/-- Claim C8 (amended): the classification step never raises — every
outcome yields a descriptor object — and every network or parse failure is
recovered by the rule-based fallback, while a successfully parsed object is
returned as-is, missing fields included, without validation or fallback;
and a pipeline-level unexpected error is converted into a user-visible
failure response with `success := false`, the generic apology text, and the
error detail string, never propagated as a transport-level fault. -/
theorem claim_c8_error_recovery_amended (q e : String) :
    analyze_query_intent (ClassificationOutcome.failure e) q =
      (fallback_query_analysis q).toParsedIntent ∧
    (∀ outcome : ClassificationOutcome,
      analyze_query_intent outcome q =
        (fallback_query_analysis q).toParsedIntent ∨
      ∃ a, outcome = ClassificationOutcome.parsed a ∧
        analyze_query_intent outcome q = a) ∧
    route_query_result (process_query_top (Except.error e)) =
      { success := false
        text_response := "I'm sorry, I couldn't process your query at this time."
        table_data := none, chart_data := none
        error_message := some e } := by
  refine ⟨rfl, ?_, rfl⟩
  intro outcome
  cases outcome with
  | parsed a => exact Or.inr ⟨a, rfl, rfl⟩
  | failure msg => exact Or.inl rfl

end QuerySystem
